import Mathlib

/-!
Shallow embedding of the sabnzbd-api client (src/src/Client.ts) in Lean 4.

The embedding models:
* JavaScript values (`JSValue`), truthiness and string conversion, as used by
  the argument-presence tests (`if( start ) ...`) and `URLSearchParams.append`;
* the request encoder of `Client.methodCall` (query-string transport) and of
  `Client.addFile` (multipart transport);
* the response interpretation of `Client.methodCall` (promise settlement:
  resolve / reject-in-catch / reject-in-try-catch / never settles);
* the per-operation post-decode steps cited by the claims (`queue`, `version`,
  `getCats`, `getFiles`, `translateText`, `serverStats`).
-/

namespace SabnzbdApi

/-- A JavaScript value, as far as the client manipulates one: the decoded JSON
documents and the dynamic argument values of `Client.ts`. -/
inductive JSValue where
  | undefined
  | null
  | bool (b : Bool)
  | num (n : Int)
  | str (s : String)
  | arr (elems : List JSValue)
  | obj (fields : List (String × JSValue))

/-- JavaScript truthiness, the test performed by `if( x )` in `Client.ts`:
`undefined`, `null`, `false`, `0` and `""` are falsy; every array and object
(including empty ones) is truthy. -/
def truthy : JSValue → Bool
  | .undefined => false
  | .null => false
  | .bool b => b
  | .num n => n != 0
  | .str s => s != ""
  | .arr _ => true
  | .obj _ => true

mutual

/-- JavaScript `String(x)` conversion, applied by `URLSearchParams.append` and
by template-literal interpolation in `Client.ts`. -/
def jsToString : JSValue → String
  | .undefined => "undefined"
  | .null => "null"
  | .bool b => if b then "true" else "false"
  | .num n => toString n
  | .str s => s
  | .arr elems => jsArrToString elems
  | .obj _ => "[object Object]"

/-- JavaScript array-to-string: elements joined by commas (`Array.prototype.toString`). -/
def jsArrToString : List JSValue → String
  | [] => ""
  | [v] => jsToString v
  | v :: rest => jsToString v ++ "," ++ jsArrToString rest

end

/-- Key/value entries of a JavaScript object; `for( k in v )` over a
non-object iterates nothing (the sources iterated by `Client.serverStats`
are plain JSON objects). -/
def objEntries : JSValue → List (String × JSValue)
  | .obj fields => fields
  | _ => []

/-- JavaScript property access `v[k]` / `v.k` on a decoded document:
the field's value, or `undefined` when the field is absent. -/
def objGet (v : JSValue) (k : String) : JSValue :=
  match (objEntries v).find? (fun kv => kv.1 == k) with
  | some kv => kv.2
  | none => .undefined

/-- JavaScript `Map` modelled as an association list in insertion order.
`Map.set` updates the value in place when the key exists, else appends. -/
def mapSet {α : Type} (m : List (String × α)) (k : String) (v : α) : List (String × α) :=
  match m with
  | [] => [(k, v)]
  | kv :: rest => if kv.1 = k then (k, v) :: rest else kv :: mapSet rest k v

/-- JavaScript `Map.get`: the value stored under a key, if any. -/
def mapGet {α : Type} (m : List (String × α)) (k : String) : Option α :=
  match m with
  | [] => none
  | kv :: rest => if kv.1 = k then some kv.2 else mapGet rest k

/-- The loop shape of `Client.serverStats`: iterate the entries of a date- or
name-keyed source object and `Map.set` one derived value per key into an
initially empty `Map`. -/
def buildMap {α : Type} (src : List (String × JSValue)) (f : String → α) : List (String × α) :=
  src.foldl (fun m kv => mapSet m kv.1 (f kv.1)) []

/-- The argument block handed to `Client.methodCall`: nothing, a
`URLSearchParams` (entries in insertion order, keys may repeat), or a plain
object literal (string keys in insertion order, dynamic values). -/
inductive CallArgs where
  | noArgs
  | params (entries : List (String × String))
  | fields (entries : List (String × JSValue))

/-- The result of `URLSearchParams.get`: the FIRST value stored under a key.
`Client.methodCall` uses this (not `getAll`) when copying a `URLSearchParams`
argument into the request URL. -/
def firstValue (entries : List (String × String)) (k : String) : Option String :=
  match entries.find? (fun kv => kv.1 == k) with
  | some kv => some kv.2
  | none => none

/-- The caller-argument part of the query string built by `Client.methodCall`
(lines 639-649): for a `URLSearchParams` argument it iterates `args.keys()`
(one key per entry, in entry order) and appends `args.get(param) ?? ''` —
the first value for that key — once per entry; for an object argument it
appends `String(args[argKey])` per own key in insertion order. -/
def encodeArgs : CallArgs → List (String × String)
  | .noArgs => []
  | .params entries => entries.map (fun kv => (kv.1, (firstValue entries kv.1).getD ""))
  | .fields entries => entries.map (fun kv => (kv.1, jsToString kv.2))

/-- The endpoint URL built by `Client.methodCall`: `new URL(host + "/api")`. -/
def methodCallUrl (host : String) : String := host ++ "/api"

/-- The full query-parameter list of the request URL built by
`Client.methodCall`: the encoded caller arguments followed by the three
mandatory fields `mode`, `output` (default `"json"`) and `apikey`, in that
order (lines 639-653). -/
def methodCallParams (apiKey method : String) (args : CallArgs) (output : String) :
    List (String × String) :=
  encodeArgs args ++ [("mode", method), ("output", output), ("apikey", apiKey)]

/-- JavaScript truthiness of an optional number parameter (`start: number|undefined`):
`if( start )` is false for `undefined` and for `0`. -/
def truthyNum : Option Int → Bool
  | none => false
  | some n => n != 0

/-- JavaScript truthiness of an optional string parameter:
`if( search )` is false for `undefined` and for the empty string. -/
def truthyStr : Option String → Bool
  | none => false
  | some s => s != ""

/-- JavaScript truthiness of an optional array parameter:
`if( nzoIds )` is true for every supplied array, the empty array included. -/
def truthyList (o : Option (List String)) : Bool := o.isSome

/-- The `URLSearchParams` built by `Client.queue` (lines 35-45): conditional
appends of `start`, `limit`, `search` and the comma-joined `nzo_ids`, each
guarded by JavaScript truthiness of the corresponding parameter. -/
def queueParams (start limit : Option Int) (search : Option String)
    (nzoIds : Option (List String)) : List (String × String) :=
  (if truthyNum start then [("start", toString (start.getD 0))] else []) ++
  (if truthyNum limit then [("limit", toString (limit.getD 0))] else []) ++
  (if truthyStr search then [("search", search.getD "")] else []) ++
  (if truthyList nzoIds then [("nzo_ids", String.intercalate "," (nzoIds.getD []))] else [])

/-- The `URLSearchParams` built by `Client.addUrl` (lines 135-143): `name` is
always appended (the URL), then conditional appends of the optional fields.
`Priority` and `PostProcessing` are numeric enums, serialized with
`toString()`. -/
def addUrlParams (url : String) (name password cat script : Option String)
    (priority postProcess : Option Int) : List (String × String) :=
  [("name", url)] ++
  (if truthyStr name then [("nzbname", name.getD "")] else []) ++
  (if truthyStr password then [("password", password.getD "")] else []) ++
  (if truthyStr cat then [("cat", cat.getD "")] else []) ++
  (if truthyStr script then [("script", script.getD "")] else []) ++
  (if truthyNum priority then [("priority", toString (priority.getD 0))] else []) ++
  (if truthyNum postProcess then [("pp", toString (postProcess.getD 0))] else [])

/-- The object argument passed by `Client.queueSort` (line 83):
`{name: "sort", dir: ascending ? "asc" : "desc", sort: sortBy}`; the
`SortOptions` enum values are the strings `"avg_age"`, `"name"`, `"size"`. -/
def queueSortArgs (sortBy : String) (ascending : Bool) : CallArgs :=
  .fields [("name", .str "sort"), ("dir", .str (if ascending then "asc" else "desc")),
    ("sort", .str sortBy)]

/-- The object argument passed by `Client.jobDelete` (lines 259-264): an array
of ids is comma-joined into the single `value` field, a single id is passed
through. -/
def jobDeleteArgs : String ⊕ List String → CallArgs
  | .inl id => .fields [("name", .str "delete"), ("value", .str id)]
  | .inr ids => .fields [("name", .str "delete"), ("value", .str (String.intercalate "," ids))]

/-- The `URLSearchParams` built by `Client.setConfigDefault` for an array
argument (lines 564-566): one `keyword` entry appended per element. -/
def setConfigDefaultParams (keywords : List String) : List (String × String) :=
  keywords.map (fun v => ("keyword", v))

/-- The argument block passed by `Client.setConfigDefault` (lines 563-571):
a `URLSearchParams` with one `keyword` entry per element for an array, or the
object `{keyword: keyword}` for a single string. -/
def setConfigDefaultArgs : String ⊕ List String → CallArgs
  | .inl keyword => .fields [("keyword", .str keyword)]
  | .inr keywords => .params (setConfigDefaultParams keywords)

/-- The form fields of the multipart request built by `Client.addFile`
(lines 196-205): the caller-prepared `FormData` entries (holding the NZB
payload), then the three mandatory fields `mode`, `output`, `apikey`, then
the conditional optional fields. -/
def addFileFields (apiKey : String) (callerFields : List (String × String))
    (name password cat script : Option String) (priority postProcess : Option Int) :
    List (String × String) :=
  callerFields ++
  [("mode", "addfile"), ("output", "json"), ("apikey", apiKey)] ++
  (if truthyStr name then [("nzbname", name.getD "")] else []) ++
  (if truthyStr password then [("password", password.getD "")] else []) ++
  (if truthyStr cat then [("cat", cat.getD "")] else []) ++
  (if truthyStr script then [("script", script.getD "")] else []) ++
  (if truthyNum priority then [("priority", toString (priority.getD 0))] else []) ++
  (if truthyNum postProcess then [("pp", toString (postProcess.getD 0))] else [])

/-- Outcome of the HTTP exchange performed by the `got` transport collaborator:
either a response (status code and body) or a connection-level failure
carrying an `Error` with the given message. -/
inductive HttpOutcome where
  | response (status : Nat) (body : String)
  | networkError (msg : String)

/-- How `got` delivers an `HttpOutcome` to the promise chain of
`Client.methodCall`. With its default `throwHttpErrors` behaviour, `got`
fulfills its promise only for success (2xx) statuses; a non-2xx status is
delivered to the `.catch` handler as an `HTTPError` whose message names the
status (`Response code <status> ...`); a connection failure is delivered to
`.catch` as the underlying `Error`. `Sum.inl` is the `.then` path,
`Sum.inr` the `.catch` path with the error's message. -/
def gotResult : HttpOutcome → (Nat × String) ⊕ String
  | .response status body =>
      if 200 ≤ status && status < 300 then .inl (status, body)
      else .inr ("Response code " ++ toString status)
  | .networkError msg => .inr msg

/-- How the promise returned by `Client.methodCall` settles. The two
rejection sites of the source are kept apart: `rejectedHost` is the
`reject(new Error('Error accessing SABnzbd host...'))` inside the `.catch`
handler (line 667), `rejectedJson` is the
`reject(new Error('Error parsing response as JSON'))` inside the outer
`try/catch` (line 672). `pending` means neither `resolve` nor `reject` was
ever called, so the promise never settles. -/
inductive Settle where
  | resolved (v : JSValue)
  | resolvedText (body : String)
  | rejectedHost (msg : String)
  | rejectedJson (msg : String)
  | pending

/-- Settlement of the promise returned by `Client.methodCall` (lines 655-673),
given a JSON parser (`JSON.parse`, which either returns a document or throws
a `SyntaxError` with a message). Control flow of the source:
* the `.catch` path rejects with `'Error accessing SABnzbd host: ' + message`;
* on a 200 status with `output === 'json'`, `JSON.parse(response.body)` is
  evaluated INSIDE the `.then` callback, so a parse failure is a throw inside
  that callback: the promise chain routes it to the `.catch` handler, where
  the `SyntaxError` (an `Error`) is wrapped as
  `'Error accessing SABnzbd host: ' + error.message`. The outer `try/catch`
  that rejects with `'Error parsing response as JSON'` only guards the
  synchronous call `got(apiUrl)...` and is unreachable for parse failures;
* on a 200 status with a non-json output the body is resolved verbatim;
* on a delivered response whose status is not 200 (a 2xx other than 200),
  the `.then` callback does nothing and the promise never settles. -/
def methodCallSettle (parse : String → Except String JSValue) (output : String)
    (o : HttpOutcome) : Settle :=
  match gotResult o with
  | .inr errMsg => .rejectedHost ("Error accessing SABnzbd host: " ++ errMsg)
  | .inl (status, body) =>
      if status = 200 then
        if output = "json" then
          match parse body with
          | .ok v => .resolved v
          | .error m => .rejectedHost ("Error accessing SABnzbd host: " ++ m)
        else .resolvedText body
      else .pending

/-- A `JSON.parse` stand-in that fails on every body, with the message a
JavaScript engine produces for a non-JSON body. -/
def parseFailAll : String → Except String JSValue :=
  fun _ => .error "Unexpected token o in JSON at position 1"

/-- A `JSON.parse` stand-in that succeeds on every body with an empty document. -/
def parseOkEmpty : String → Except String JSValue :=
  fun _ => .ok (.obj [])

/-- How the promise of a specific public operation settles once `methodCall`
has delivered a decoded document. -/
inductive Outcome where
  | fulfilled (v : JSValue)
  | rejected (msg : String)
  | pending

/-- Post-decode step of `Client.queue` (line 47): `return <Queue>resultsObj.queue`
— the field is returned unchecked, so the promise fulfills with `undefined`
when the field is absent. -/
def queueSettle (results : JSValue) : Outcome :=
  .fulfilled (objGet results "queue")

/-- Post-decode step of `Client.getFiles` (line 382):
`resolve(<File[]>results.files)` — the field is resolved unchecked. -/
def getFilesSettle (results : JSValue) : Outcome :=
  .fulfilled (objGet results "files")

/-- Post-decode step of `Client.version` (lines 394-397): resolve the
`version` field when truthy, else reject with
`new Error("Invalid response from SABnzbd")`. -/
def versionSettle (results : JSValue) : Outcome :=
  if truthy (objGet results "version") then .fulfilled (objGet results "version")
  else .rejected "Invalid response from SABnzbd"

/-- Post-decode step of `Client.getCats` (lines 457-460): reject with
`new Error("Invalid response from SABnzbd")` when `categories` is falsy,
else resolve it. -/
def getCatsSettle (results : JSValue) : Outcome :=
  if !truthy (objGet results "categories") then .rejected "Invalid response from SABnzbd"
  else .fulfilled (objGet results "categories")

/-- Post-decode step of `Client.translateText` (lines 580-583): when
`results.value` is truthy the code executes `return results.value` inside the
promise executor — a plain return from the callback, not a `resolve` call —
so neither `resolve` nor `reject` runs and the promise never settles;
otherwise it rejects with `'Error in API call'` plus the `error` field when
that is truthy. -/
def translateTextSettle (results : JSValue) : Outcome :=
  if truthy (objGet results "value") then .pending
  else .rejected ("Error in API call" ++
    (if truthy (objGet results "error") then ": " ++ jsToString (objGet results "error") else ""))

/-- The per-server record built by `Client.serverStats` (Types.ts
`ServerStats`): four scalar tallies and three date-keyed `Map`s. -/
structure ServerStats where
  day : JSValue
  week : JSValue
  month : JSValue
  total : JSValue
  daily : List (String × JSValue)
  articles_tried : List (String × JSValue)
  articles_success : List (String × JSValue)

/-- The top-level record built by `Client.serverStats` (Types.ts `Stats`). -/
structure Stats where
  day : JSValue
  week : JSValue
  month : JSValue
  total : JSValue
  servers : List (String × ServerStats)

/-- The per-server projection of `Client.serverStats` (lines 498-515): each
lookup iterates the keys of its own source object; `daily` and
`articles_tried` insert `source[key]` from the same-named source, while the
`articles_success` loop inserts `serverResult.articles_tried[key]` — the
articles-tried value — under each key of `articles_success` (line 515 of the
source reads `articles_tried`, not `articles_success`). -/
def projectServer (sr : JSValue) : ServerStats :=
  { day := objGet sr "day"
    week := objGet sr "week"
    month := objGet sr "month"
    total := objGet sr "total"
    daily := buildMap (objEntries (objGet sr "daily"))
      (fun k => objGet (objGet sr "daily") k)
    articles_tried := buildMap (objEntries (objGet sr "articles_tried"))
      (fun k => objGet (objGet sr "articles_tried") k)
    articles_success := buildMap (objEntries (objGet sr "articles_success"))
      (fun k => objGet (objGet sr "articles_tried") k) }

/-- The full statistics projection of `Client.serverStats` (lines 488-521):
scalar tallies copied from the decoded document, and one `ServerStats` per
entry of `results.servers`, built from `results.servers[serverName]`. -/
def serverStatsProject (results : JSValue) : Stats :=
  { day := objGet results "day"
    week := objGet results "week"
    month := objGet results "month"
    total := objGet results "total"
    servers := buildMap (objEntries (objGet results "servers"))
      (fun name => projectServer (objGet (objGet results "servers") name)) }

/-- A concrete decoded `server_stats` document with two servers and three
date keys per field; the two servers list their date keys in different
orders. -/
def twoServersResp : JSValue :=
  .obj [("day", .num 100), ("week", .num 200), ("month", .num 300), ("total", .num 400),
    ("servers", .obj [
      ("alpha", .obj [
        ("day", .num 1), ("week", .num 2), ("month", .num 3), ("total", .num 4),
        ("daily", .obj [("2024-01-01", .num 10), ("2024-01-02", .num 11), ("2024-01-03", .num 12)]),
        ("articles_tried", .obj [("2024-01-01", .num 20), ("2024-01-02", .num 21), ("2024-01-03", .num 22)]),
        ("articles_success", .obj [("2024-01-01", .num 30), ("2024-01-02", .num 31), ("2024-01-03", .num 32)])]),
      ("beta", .obj [
        ("day", .num 5), ("week", .num 6), ("month", .num 7), ("total", .num 8),
        ("daily", .obj [("2024-01-03", .num 13), ("2024-01-01", .num 14), ("2024-01-02", .num 15)]),
        ("articles_tried", .obj [("2024-01-02", .num 23), ("2024-01-03", .num 24), ("2024-01-01", .num 25)]),
        ("articles_success", .obj [("2024-01-03", .num 33), ("2024-01-02", .num 34), ("2024-01-01", .num 35)])])])]

/-! General lemmas about the map and encoder models. -/

theorem mapGet_mapSet {α : Type} (m : List (String × α)) (k : String) (v : α) (k' : String) :
    mapGet (mapSet m k v) k' = if k' = k then some v else mapGet m k' := by
  induction m with
  | nil =>
    by_cases h : k' = k
    · simp [mapSet, mapGet, h]
    · simp [mapSet, mapGet, h, Ne.symm h]
  | cons kv rest ih =>
    by_cases h : kv.1 = k
    · by_cases h2 : k' = k
      · simp [mapSet, mapGet, h, h2]
      · simp [mapSet, mapGet, h, h2, Ne.symm h2]
    · by_cases h2 : kv.1 = k'
      · simp only [mapSet, if_neg h, mapGet, if_pos h2]
        rw [if_neg]
        intro h3
        exact h (h2.trans h3)
      · simp [mapSet, mapGet, h, h2, ih]

theorem mapGet_foldl_set {α : Type} (f : String → α) (src : List (String × JSValue)) :
    ∀ (m : List (String × α)) (k : String),
      mapGet (src.foldl (fun acc kv => mapSet acc kv.1 (f kv.1)) m) k =
        if k ∈ src.map Prod.fst then some (f k) else mapGet m k := by
  induction src with
  | nil => intro m k; simp
  | cons a rest ih =>
    intro m k
    simp only [List.foldl_cons, ih, List.map_cons, List.mem_cons]
    by_cases hk : k ∈ rest.map Prod.fst
    · simp [hk]
    · simp only [hk, or_false, mapGet_mapSet]
      by_cases hka : k = a.1 <;> simp [hka]

theorem mapGet_buildMap {α : Type} (src : List (String × JSValue)) (f : String → α)
    (k : String) :
    mapGet (buildMap src f) k = if k ∈ src.map Prod.fst then some (f k) else none := by
  have h := mapGet_foldl_set f src [] k
  simpa [buildMap, mapGet] using h

theorem mapSet_keys_of_not_mem {α : Type} (m : List (String × α)) (k : String) (v : α)
    (h : k ∉ m.map Prod.fst) : (mapSet m k v).map Prod.fst = m.map Prod.fst ++ [k] := by
  induction m with
  | nil => simp [mapSet]
  | cons a rest ih =>
    simp only [List.map_cons, List.mem_cons] at h
    push_neg at h
    rw [mapSet, if_neg (fun h2 => h.1 h2.symm)]
    simp only [List.map_cons, ih h.2, List.cons_append]

theorem foldl_set_keys {α : Type} (f : String → α) (src : List (String × JSValue)) :
    ∀ (m : List (String × α)), (src.map Prod.fst).Nodup →
      (∀ k ∈ src.map Prod.fst, k ∉ m.map Prod.fst) →
      (src.foldl (fun acc kv => mapSet acc kv.1 (f kv.1)) m).map Prod.fst =
        m.map Prod.fst ++ src.map Prod.fst := by
  induction src with
  | nil => intro m _ _; simp
  | cons a rest ih =>
    intro m hnd hdisj
    simp only [List.map_cons] at hnd
    have hnd2 := List.nodup_cons.mp hnd
    have ha : a.1 ∉ m.map Prod.fst := hdisj a.1 (by simp)
    simp only [List.foldl_cons]
    rw [ih (mapSet m a.1 (f a.1)) hnd2.2 ?_]
    · rw [mapSet_keys_of_not_mem m a.1 (f a.1) ha]
      simp
    · intro k hk
      rw [mapSet_keys_of_not_mem m a.1 (f a.1) ha]
      simp only [List.mem_append, List.mem_singleton]
      rintro (hm | rfl)
      · exact hdisj k (by simp [hk]) hm
      · exact hnd2.1 hk

theorem buildMap_keys {α : Type} (src : List (String × JSValue)) (f : String → α)
    (h : (src.map Prod.fst).Nodup) :
    (buildMap src f).map Prod.fst = src.map Prod.fst := by
  have h2 := foldl_set_keys f src [] h (by simp)
  simpa [buildMap] using h2

theorem firstValue_cons (a : String × String) (rest : List (String × String)) (k : String) :
    firstValue (a :: rest) k = if a.1 = k then some a.2 else firstValue rest k := by
  by_cases h : a.1 = k
  · simp [firstValue, List.find?_cons_of_pos, h]
  · rw [firstValue, List.find?_cons_of_neg _ (by simpa using h), if_neg h, firstValue]

theorem firstValue_of_nodup (ps : List (String × String))
    (h : (ps.map Prod.fst).Nodup) : ∀ kv ∈ ps, firstValue ps kv.1 = some kv.2 := by
  induction ps with
  | nil => simp
  | cons a rest ih =>
    simp only [List.map_cons] at h
    have h2 := List.nodup_cons.mp h
    intro kv hkv
    rcases List.mem_cons.mp hkv with rfl | hmem
    · simp [firstValue_cons]
    · have hne : a.1 ≠ kv.1 := by
        intro heq
        exact h2.1 (heq ▸ List.mem_map_of_mem Prod.fst hmem)
      rw [firstValue_cons, if_neg hne]
      exact ih h2.2 kv hmem

theorem encodeArgs_of_nodup (ps : List (String × String))
    (h : (ps.map Prod.fst).Nodup) : encodeArgs (CallArgs.params ps) = ps := by
  have hfv := firstValue_of_nodup ps h
  rw [encodeArgs]
  have h2 : ∀ kv ∈ ps, (fun kv : String × String =>
      (kv.1, (firstValue ps kv.1).getD "")) kv = id kv := by
    intro kv hkv
    simp [hfv kv hkv]
  rw [List.map_congr_left h2, List.map_id]

/-- Number of occurrences of a key in an encoded parameter list. -/
def countKey (entries : List (String × String)) (k : String) : Nat :=
  entries.countP (fun kv => kv.1 == k)

theorem countKey_append (xs ys : List (String × String)) (k : String) :
    countKey (xs ++ ys) k = countKey xs k + countKey ys k := by
  simp [countKey, List.countP_append]

theorem countKey_opt (c : Bool) (k v k' : String) :
    countKey (if c then [(k, v)] else []) k' = if c ∧ k = k' then 1 else 0 := by
  cases c <;> by_cases h : k = k' <;>
    simp [countKey, List.countP_cons, List.countP_nil, h]

theorem countKey_cons (a : String × String) (rest : List (String × String)) (k : String) :
    countKey (a :: rest) k = (if a.1 = k then 1 else 0) + countKey rest k := by
  by_cases h : a.1 = k <;> simp [countKey, List.countP_cons, h, Nat.add_comm]

theorem countKey_one (k v k' : String) :
    countKey [(k, v)] k' = if k = k' then 1 else 0 := by
  by_cases h : k = k' <;> simp [countKey, List.countP_cons, List.countP_nil, h]

/-! Claim theorems. -/

/-- C1: the claim says a non-parseable body on a 200 status yields a Decode
Error and never a Transport Error. The code does the opposite: the
`JSON.parse` throw happens inside the `.then` callback and is routed by the
promise chain to the `.catch` handler, which rejects with the
Transport-Error message `'Error accessing SABnzbd host: ' + error.message`;
the outer `try/catch` carrying the Decode-Error message
`'Error parsing response as JSON'` is unreachable. First conjunct: no input
whatsoever makes `methodCall` reject from the Decode-Error site. Second
conjunct: a 200 response with a non-JSON body rejects from the `.catch`
site with the Transport-Error message wrapping the `SyntaxError` text. -/
theorem C1_parse_failure_rejected_as_transport :
    (∀ (parse : String → Except String JSValue) (output : String) (o : HttpOutcome) (m : String),
      methodCallSettle parse output o ≠ Settle.rejectedJson m) ∧
    methodCallSettle parseFailAll "json" (.response 200 "not json") =
      Settle.rejectedHost
        "Error accessing SABnzbd host: Unexpected token o in JSON at position 1" := by
  constructor
  · intro parse output o m h
    unfold methodCallSettle at h
    rcases hg : gotResult o with p | errMsg <;> rw [hg] at h
    · obtain ⟨status, body⟩ := p
      dsimp only at h
      by_cases h1 : status = 200
      · rw [if_pos h1] at h
        by_cases h2 : output = "json"
        · rw [if_pos h2] at h
          rcases hp : parse body with v | pm <;> rw [hp] at h <;> exact Settle.noConfusion h
        · rw [if_neg h2] at h
          exact Settle.noConfusion h
      · rw [if_neg h1] at h
        exact Settle.noConfusion h
    · exact Settle.noConfusion h
  · rfl

/-- C2 counterexample: the claim says a parameter appears in the encoded
request if and only if the caller supplied a defined, non-empty value, and
never as an empty string. Calling `queue` with `start = 0` (a defined,
non-empty number) and `nzoIds = []` (a defined but empty list) refutes both
directions at once: `start` is dropped (`if( start )` is false for `0`)
while `nzo_ids` appears, serialized as the empty string. -/
theorem C2_counterexample :
    queueParams (some 0) none none (some []) = [("nzo_ids", "")] := rfl

/-- C2 amended: a named argument appears in the encoded request if and only
if its supplied value is JavaScript-truthy — `undefined` parameters never
appear, but neither do supplied zeroes or empty strings, and a supplied
empty list appears as a single field holding the empty string — and every
appearing parameter appears exactly once. Stated as an occurrence count for
every optional key of `queue` and `addUrl` (and the mandatory `name` of
`addUrl`). -/
theorem C2_presence_is_truthiness (start limit : Option Int) (search : Option String)
    (nzoIds : Option (List String)) (url : String) (name password cat script : Option String)
    (priority postProcess : Option Int) :
    countKey (queueParams start limit search nzoIds) "start" = (if truthyNum start then 1 else 0) ∧
    countKey (queueParams start limit search nzoIds) "limit" = (if truthyNum limit then 1 else 0) ∧
    countKey (queueParams start limit search nzoIds) "search" =
      (if truthyStr search then 1 else 0) ∧
    countKey (queueParams start limit search nzoIds) "nzo_ids" =
      (if truthyList nzoIds then 1 else 0) ∧
    countKey (addUrlParams url name password cat script priority postProcess) "name" = 1 ∧
    countKey (addUrlParams url name password cat script priority postProcess) "nzbname" =
      (if truthyStr name then 1 else 0) ∧
    countKey (addUrlParams url name password cat script priority postProcess) "password" =
      (if truthyStr password then 1 else 0) ∧
    countKey (addUrlParams url name password cat script priority postProcess) "cat" =
      (if truthyStr cat then 1 else 0) ∧
    countKey (addUrlParams url name password cat script priority postProcess) "script" =
      (if truthyStr script then 1 else 0) ∧
    countKey (addUrlParams url name password cat script priority postProcess) "priority" =
      (if truthyNum priority then 1 else 0) ∧
    countKey (addUrlParams url name password cat script priority postProcess) "pp" =
      (if truthyNum postProcess then 1 else 0) := by
  refine ⟨?_, ?_, ?_, ?_, ?_, ?_, ?_, ?_, ?_, ?_, ?_⟩ <;>
    simp [queueParams, addUrlParams, countKey_append, countKey_opt, countKey_one, countKey_cons]

/-- C3 counterexample: the claim says an operation requiring a field of the
decoded response rejects with a Protocol Error when the field is absent and
never resolves with an undefined result. `Client.queue` performs no check:
on a decoded document without a `queue` field it fulfills with `undefined`. -/
theorem C3_counterexample :
    queueSettle (JSValue.obj []) = Outcome.fulfilled JSValue.undefined := rfl

/-- C3 amended: the required-field rule holds for `version` and `getCats`
(and the similarly written `auth`/`getScripts`), which reject with the
Protocol-Error message `"Invalid response from SABnzbd"` when the field is
absent; but `queue` and `getFiles` perform no check and fulfill with the
possibly-undefined field value. -/
theorem C3_required_field_checks :
    (∀ results : JSValue, objGet results "version" = JSValue.undefined →
      versionSettle results = Outcome.rejected "Invalid response from SABnzbd") ∧
    (∀ results : JSValue, objGet results "categories" = JSValue.undefined →
      getCatsSettle results = Outcome.rejected "Invalid response from SABnzbd") ∧
    (∀ results : JSValue, queueSettle results = Outcome.fulfilled (objGet results "queue")) ∧
    (∀ results : JSValue, getFilesSettle results = Outcome.fulfilled (objGet results "files")) := by
  refine ⟨?_, ?_, fun _ => rfl, fun _ => rfl⟩
  · intro results h
    rw [versionSettle, h]
    rfl
  · intro results h
    rw [getCatsSettle, h]
    rfl

/-- C3 witness: `C3_required_field_checks` applied to the empty decoded
document, on which both checked operations reject with the Protocol Error. -/
theorem C3_required_field_checks_witness :
    versionSettle (JSValue.obj []) = Outcome.rejected "Invalid response from SABnzbd" ∧
    getCatsSettle (JSValue.obj []) = Outcome.rejected "Invalid response from SABnzbd" :=
  ⟨C3_required_field_checks.1 (JSValue.obj []) rfl,
   C3_required_field_checks.2.1 (JSValue.obj []) rfl⟩

/-- C4 counterexample: the claim says the query parameters of every
dispatched call are exactly the caller-supplied arguments in the order
supplied, followed by `mode`, `output`, `apikey`. Dispatching
`setConfigDefault(["a","b"])` refutes it: the `URLSearchParams` merge in
`methodCall` appends `args.get(param)` — the FIRST value of the key — once
per entry, so the encoded request carries `keyword=a, keyword=a` instead of
the supplied `keyword=a, keyword=b`. -/
theorem C4_counterexample :
    methodCallParams "KEY" "set_config_default" (setConfigDefaultArgs (Sum.inr ["a", "b"]))
        "json" =
      [("keyword", "a"), ("keyword", "a"), ("mode", "set_config_default"), ("output", "json"),
        ("apikey", "KEY")] ∧
    setConfigDefaultParams ["a", "b"] ++
        [("mode", "set_config_default"), ("output", "json"), ("apikey", "KEY")] =
      [("keyword", "a"), ("keyword", "b"), ("mode", "set_config_default"), ("output", "json"),
        ("apikey", "KEY")] ∧
    ([("keyword", "a"), ("keyword", "a"), ("mode", "set_config_default"), ("output", "json"),
        ("apikey", "KEY")] : List (String × String)) ≠
      [("keyword", "a"), ("keyword", "b"), ("mode", "set_config_default"), ("output", "json"),
        ("apikey", "KEY")] := by
  refine ⟨rfl, rfl, ?_⟩
  decide

/-- C4 amended: the request URL is `<host>/api` and, for every call whose
argument keys are pairwise distinct (which includes every object-literal
argument and all but one `URLSearchParams` in the client), the query
parameters are exactly the caller-supplied arguments in the order supplied
followed by `mode`, `output`, `apikey` in that order; when a
`URLSearchParams` key repeats, each occurrence is re-encoded with the first
value stored under that key. The `queueSort` instance holds exactly as the
claim states. -/
theorem C4_param_order (host apiKey method output sortBy : String)
    (ps : List (String × String)) (h : (ps.map Prod.fst).Nodup) :
    methodCallUrl host = host ++ "/api" ∧
    methodCallParams apiKey method (.params ps) output =
      ps ++ [("mode", method), ("output", output), ("apikey", apiKey)] ∧
    methodCallParams apiKey "queue" (queueSortArgs sortBy false) "json" =
      [("name", "sort"), ("dir", "desc"), ("sort", sortBy), ("mode", "queue"),
        ("output", "json"), ("apikey", apiKey)] := by
  refine ⟨rfl, ?_, rfl⟩
  rw [methodCallParams, encodeArgs_of_nodup ps h]

/-- C4 witness: `C4_param_order` applied to the distinct-key parameter list
of a `queuePurge` call. -/
theorem C4_param_order_witness :
    methodCallParams "KEY" "queue" (CallArgs.params [("name", "purge"), ("del_files", "1")])
        "json" =
      [("name", "purge"), ("del_files", "1"), ("mode", "queue"), ("output", "json"),
        ("apikey", "KEY")] :=
  (C4_param_order "http://localhost:8080" "KEY" "queue" "json" "size"
    [("name", "purge"), ("del_files", "1")] (by decide)).2.1

/-- C5 counterexample: the claim says a list-valued argument is serialized
as one comma-joined field, never as repeated keys. `setConfigDefault` with
three keywords refutes it: the encoded request carries three repeated
`keyword` fields (each holding the first element, after the `methodCall`
merge), not one `keyword=x,y,z` field. -/
theorem C5_counterexample :
    encodeArgs (setConfigDefaultArgs (Sum.inr ["x", "y", "z"])) =
      [("keyword", "x"), ("keyword", "x"), ("keyword", "x")] ∧
    ([("keyword", "x"), ("keyword", "x"), ("keyword", "x")] : List (String × String)) ≠
      [("keyword", "x,y,z")] := by
  refine ⟨rfl, ?_⟩
  decide

/-- C5 amended: `jobDelete` comma-joins an id list into the single `value`
field, as the claim says; but `setConfigDefault` serializes a keyword list
as one repeated `keyword` entry per element, and the `URLSearchParams` merge
in `methodCall` re-encodes every occurrence with the first element's value. -/
theorem C5_list_arguments (ids : List String) (x : String) (rest : List String) :
    encodeArgs (jobDeleteArgs (Sum.inr ids)) =
      [("name", "delete"), ("value", String.intercalate "," ids)] ∧
    encodeArgs (setConfigDefaultArgs (Sum.inr (x :: rest))) =
      (x :: rest).map (fun _ => ("keyword", x)) := by
  constructor
  · rfl
  · simp only [setConfigDefaultArgs, setConfigDefaultParams, encodeArgs]
    have hconst : ∀ kv ∈ (x :: rest).map (fun v => ("keyword", v)),
        (fun kv : String × String =>
          (kv.1, (firstValue ((x :: rest).map (fun v => ("keyword", v))) kv.1).getD "")) kv =
        (fun _ : String × String => ("keyword", x)) kv := by
      intro kv hkv
      obtain ⟨v, hv, rfl⟩ := List.mem_map.mp hkv
      simp [List.map_cons, firstValue_cons]
    rw [List.map_congr_left hconst]
    simp [List.map_const', List.length_map, Function.comp_def]

/-- C6 counterexample: the claim says every HTTP status other than 200
yields a Transport Error. A delivered 204 response refutes it: `got`
fulfills for any 2xx status, the `.then` callback of `methodCall` does
nothing when the status is not exactly 200, and the promise never settles —
no Transport Error, no rejection at all. -/
theorem C6_counterexample :
    methodCallSettle parseOkEmpty "json" (.response 204 "{}") = Settle.pending := rfl

/-- C6 amended: a connection failure, and any non-2xx status (which `got`
delivers to the `.catch` handler as an `HTTPError`), reject with the
Transport-Error message wrapping the underlying cause, without the body ever
being decoded (the result does not depend on the parser or the body); but a
delivered 2xx status other than 200 leaves the promise unsettled instead of
producing a Transport Error. -/
theorem C6_transport_failures (parse : String → Except String JSValue) (output : String)
    (msg body1 body2 : String) (s1 s2 : Nat) :
    methodCallSettle parse output (.networkError msg) =
      Settle.rejectedHost ("Error accessing SABnzbd host: " ++ msg) ∧
    (s1 < 200 ∨ 300 ≤ s1 →
      methodCallSettle parse output (.response s1 body1) =
        Settle.rejectedHost ("Error accessing SABnzbd host: Response code " ++ toString s1)) ∧
    (200 ≤ s2 → s2 < 300 → s2 ≠ 200 →
      methodCallSettle parse output (.response s2 body2) = Settle.pending) := by
  refine ⟨rfl, ?_, ?_⟩
  · intro h
    have hc : ¬(200 ≤ s1 ∧ s1 < 300) := by omega
    have hg : gotResult (.response s1 body1) = Sum.inr ("Response code " ++ toString s1) := by
      rw [gotResult, if_neg (by simpa [Bool.and_eq_true, decide_eq_true_eq] using hc)]
    rw [methodCallSettle, hg]
    dsimp only
    rw [← String.append_assoc]
    rfl
  · intro h1 h2 h3
    have hg : gotResult (.response s2 body2) = Sum.inl (s2, body2) := by
      rw [gotResult, if_pos (by simp [Bool.and_eq_true, decide_eq_true_eq]; omega)]
    rw [methodCallSettle, hg]
    dsimp only
    rw [if_neg h3]

/-- C6 witness: `C6_transport_failures` applied to a connection failure, a
404 response and a 204 response. -/
theorem C6_transport_failures_witness :
    methodCallSettle parseOkEmpty "json" (HttpOutcome.networkError "connect ECONNREFUSED") =
      Settle.rejectedHost "Error accessing SABnzbd host: connect ECONNREFUSED" ∧
    methodCallSettle parseOkEmpty "json" (HttpOutcome.response 404 "<html>") =
      Settle.rejectedHost "Error accessing SABnzbd host: Response code 404" ∧
    methodCallSettle parseOkEmpty "json" (HttpOutcome.response 204 "") = Settle.pending := by
  have h := C6_transport_failures parseOkEmpty "json" "connect ECONNREFUSED" "<html>" "" 404 204
  exact ⟨h.1, h.2.1 (by omega), h.2.2 (by omega) (by omega) (by omega)⟩

/-- C7: in the statistics projection, for every server of the decoded
response and every date key iterated for the articles-succeeded lookup, the
output `articles_success` entry is populated from the `articles_tried`
source object at that key (line 515 of the source reads
`serverResult.articles_tried[articlesSuccessDate]`). -/
theorem C7_articles_success_from_tried (results : JSValue) (name : String) (s : ServerStats)
    (k : String)
    (hs : mapGet (serverStatsProject results).servers name = some s)
    (hk : k ∈ (objEntries (objGet (objGet (objGet results "servers") name)
      "articles_success")).map Prod.fst) :
    mapGet s.articles_success k =
      some (objGet (objGet (objGet (objGet results "servers") name) "articles_tried") k) := by
  have hsrv := mapGet_buildMap (objEntries (objGet results "servers"))
    (fun n => projectServer (objGet (objGet results "servers") n)) name
  rw [serverStatsProject] at hs
  dsimp only at hs
  rw [hsrv] at hs
  split_ifs at hs with hmem
  injection hs with hs2
  subst hs2
  have hsucc := mapGet_buildMap
    (objEntries (objGet (objGet (objGet results "servers") name) "articles_success"))
    (fun k2 => objGet (objGet (objGet (objGet results "servers") name) "articles_tried") k2) k
  rw [projectServer]
  dsimp only
  rw [hsucc, if_pos hk]

/-- C7 witness: `C7_articles_success_from_tried` applied to the concrete
two-server document; the `articles_success` entry of server `beta` for
2024-01-02 holds 23, the `articles_tried` source value, not the
`articles_success` source value 34. -/
theorem C7_articles_success_from_tried_witness :
    mapGet (projectServer (objGet (objGet twoServersResp "servers") "beta")).articles_success
      "2024-01-02" = some (JSValue.num 23) :=
  (C7_articles_success_from_tried twoServersResp "beta"
    (projectServer (objGet (objGet twoServersResp "servers") "beta")) "2024-01-02" rfl
    (by decide)).trans rfl

/-- C8: in the statistics projection, for each of the three date-keyed
source objects, every date key of the source appears exactly once as a key
of the corresponding output lookup: given distinct source keys (JavaScript
object keys are always distinct), the key list of each output lookup equals
the source key list. On the concrete two-server, three-date document — whose
two servers list their date keys in different orders — the output lookups
hold exactly six entries per field across the servers. -/
theorem C8_date_keys_exactly_once (sr : JSValue)
    (hnd : ((objEntries (objGet sr "daily")).map Prod.fst).Nodup)
    (hnt : ((objEntries (objGet sr "articles_tried")).map Prod.fst).Nodup)
    (hns : ((objEntries (objGet sr "articles_success")).map Prod.fst).Nodup) :
    ((projectServer sr).daily.map Prod.fst = (objEntries (objGet sr "daily")).map Prod.fst ∧
     (projectServer sr).articles_tried.map Prod.fst =
       (objEntries (objGet sr "articles_tried")).map Prod.fst ∧
     (projectServer sr).articles_success.map Prod.fst =
       (objEntries (objGet sr "articles_success")).map Prod.fst) ∧
    (((serverStatsProject twoServersResp).servers.map (fun kv => kv.2.daily.length)).sum = 6 ∧
     ((serverStatsProject twoServersResp).servers.map
       (fun kv => kv.2.articles_tried.length)).sum = 6 ∧
     ((serverStatsProject twoServersResp).servers.map
       (fun kv => kv.2.articles_success.length)).sum = 6) := by
  refine ⟨⟨?_, ?_, ?_⟩, ⟨by decide, by decide, by decide⟩⟩
  · rw [projectServer]
    exact buildMap_keys _ _ hnd
  · rw [projectServer]
    exact buildMap_keys _ _ hnt
  · rw [projectServer]
    exact buildMap_keys _ _ hns

/-- C8 witness: `C8_date_keys_exactly_once` applied to server `alpha` of the
concrete document. -/
theorem C8_date_keys_exactly_once_witness :
    (projectServer (objGet (objGet twoServersResp "servers") "alpha")).daily.map Prod.fst =
      (objEntries (objGet (objGet (objGet twoServersResp "servers") "alpha") "daily")).map
        Prod.fst ∧
    (projectServer (objGet (objGet twoServersResp "servers") "alpha")).articles_tried.map
        Prod.fst =
      (objEntries (objGet (objGet (objGet twoServersResp "servers") "alpha")
        "articles_tried")).map Prod.fst ∧
    (projectServer (objGet (objGet twoServersResp "servers") "alpha")).articles_success.map
        Prod.fst =
      (objEntries (objGet (objGet (objGet twoServersResp "servers") "alpha")
        "articles_success")).map Prod.fst :=
  (C8_date_keys_exactly_once (objGet (objGet twoServersResp "servers") "alpha")
    (by decide) (by decide) (by decide)).1

/-- C9: every encoded request carries the three mandatory control fields on
both transports: the query string built by `methodCall` contains
`mode=<method>`, `output=<output>` and `apikey=<key>` for every argument
block, and the multipart form built by `addFile` contains `mode=addfile`,
`output=json` and `apikey=<key>` for every caller form and optional-field
combination. -/
theorem C9_mandatory_fields (apiKey method output : String) (args : CallArgs)
    (callerFields : List (String × String)) (name password cat script : Option String)
    (priority postProcess : Option Int) :
    (("mode", method) ∈ methodCallParams apiKey method args output ∧
     ("output", output) ∈ methodCallParams apiKey method args output ∧
     ("apikey", apiKey) ∈ methodCallParams apiKey method args output) ∧
    (("mode", "addfile") ∈
       addFileFields apiKey callerFields name password cat script priority postProcess ∧
     ("output", "json") ∈
       addFileFields apiKey callerFields name password cat script priority postProcess ∧
     ("apikey", apiKey) ∈
       addFileFields apiKey callerFields name password cat script priority postProcess) := by
  refine ⟨⟨?_, ?_, ?_⟩, ⟨?_, ?_, ?_⟩⟩ <;> simp [methodCallParams, addFileFields]

/-- C10: when the decoded translate response has a present, non-empty
`value`, the success branch of `translateTextSettle` executes
`return results.value` inside the promise executor without calling
`resolve`, so the promise never settles; and on no decoded response does the
translate promise ever fulfill. -/
theorem C10_translate_success_never_settles (results : JSValue) (s : String)
    (hv : objGet results "value" = JSValue.str s) (hne : s ≠ "") :
    translateTextSettle results = Outcome.pending ∧
    ∀ (results2 : JSValue) (v : JSValue),
      translateTextSettle results2 ≠ Outcome.fulfilled v := by
  constructor
  · rw [translateTextSettle, hv]
    simp [truthy, bne_iff_ne, hne]
  · intro results2 v h
    rw [translateTextSettle] at h
    split_ifs at h

/-- C10 witness: `C10_translate_success_never_settles` applied to a decoded
response whose `value` field is the non-empty string `"hola"`. -/
theorem C10_translate_success_never_settles_witness :
    translateTextSettle (JSValue.obj [("value", JSValue.str "hola")]) = Outcome.pending :=
  (C10_translate_success_never_settles (JSValue.obj [("value", JSValue.str "hola")]) "hola" rfl
    (by decide)).1

end SabnzbdApi
